import Mathlib

/-!
Verification of the sales-dashboard application.

A shallow embedding, in Lean 4, of the behavior of `src/dashboard.py`
(a single-file Streamlit sales dashboard).  Tables are lists of rows,
dates are modelled as integer day ordinals produced by an explicit
parser (standing in for `pd.to_datetime`: a value either parses or the
whole fetch raises), money and quantities are integers, and the effect
of each page is modelled as the list of UI elements it emits.
-/

/-- A raw row of the `monthly_sales` table, as it sits in the store:
the date column is still a string. -/
structure RawRow where
  sale_day : String
  shipping_region : String
  product_title : String
  net_sales : Int
  quantity_order : Int
deriving DecidableEq, Repr

/-- A parsed sales row: `sale_day` has been converted by the date
parser (`pd.to_datetime` in the source) to a comparable day ordinal. -/
structure SalesRow where
  sale_day : Int
  shipping_region : String
  product_title : String
  net_sales : Int
  quantity_order : Int
deriving DecidableEq, Repr

/-- Date parsing, the model of `pd.to_datetime` on one cell: a string
of one or more digits denotes a day ordinal; anything else fails to
parse (in the source, `pd.to_datetime` raises). -/
def parseDate (s : String) : Option Int :=
  if s.length > 0 && s.toList.all Char.isDigit then
    some (s.toList.foldl (fun a c => a * 10 + ((c.toNat : Int) - 48)) 0)
  else
    none

/-- Parse one raw row: succeeds iff the date cell parses. -/
def parseRow (r : RawRow) : Option SalesRow :=
  (parseDate r.sale_day).map
    (fun d => ⟨d, r.shipping_region, r.product_title, r.net_sales, r.quantity_order⟩)

/-- Vectorized `pd.to_datetime` over the whole column: all rows parse
or the conversion as a whole fails. -/
def parseAll : List RawRow → Option (List SalesRow)
  | [] => some []
  | r :: rs =>
    match parseRow r, parseAll rs with
    | some x, some xs => some (x :: xs)
    | _, _ => none

/-- `get_sales_data` (dashboard.py lines 40-46) without the cache
decorator: `SELECT * FROM monthly_sales`, then
`df['sale_day'] = pd.to_datetime(df['sale_day'])`.  The function body
has no `try`/`except`, so an unparseable date cell makes the whole
call raise; `Except.error` models the escaping exception. -/
def get_sales_data (db : List RawRow) : Except String (List SalesRow) :=
  match parseAll db with
  | some rows => .ok rows
  | none => .error "pd.to_datetime: Unknown datetime string format"

/-- The boolean row mask of dashboard.py lines 71-76:
`(sale_day >= start) & (sale_day <= end) & region.isin(sel) & product.isin(sel)`. -/
def rowMask (startD endD : Int) (regs prods : List String) (r : SalesRow) : Bool :=
  decide (startD ≤ r.sale_day) && decide (r.sale_day ≤ endD) &&
  decide (r.shipping_region ∈ regs) && decide (r.product_title ∈ prods)

/-- `filtered_df = df[mask]` (dashboard.py line 77). -/
def filterSales (df : List SalesRow) (startD endD : Int)
    (regs prods : List String) : List SalesRow :=
  df.filter (rowMask startD endD regs prods)

/-- The login gate (dashboard.py lines 15-26).  Arguments: the two
configured secret strings, the current `st.session_state["logged_in"]`
flag, and the submitted pair.  Result: the new flag and whether the
"Access Denied" error was shown.  The code sets the flag to `True`
exactly when both strings match and otherwise only shows the error,
touching no state. -/
def login (secUser secPwd : String) (logged : Bool) (user pwd : String) :
    Bool × Bool :=
  if user = secUser ∧ pwd = secPwd then (true, false) else (logged, true)

/-- Process-wide state relevant to fetching and ingestion: the
`monthly_sales` table in the store, and the `st.cache_data` memo of
`get_sales_data` (`none` = cold cache). -/
structure AppState where
  db : List RawRow
  cache : Option (List SalesRow)
deriving DecidableEq, Repr

/-- `get_sales_data` as actually called through the `@st.cache_data`
decorator: a warm cache returns the memoized table without touching
the store; a cold cache runs the query and memoizes only a successful
result (a raised exception caches nothing). -/
def cached_get_sales_data (s : AppState) :
    Except String (List SalesRow) × AppState :=
  match s.cache with
  | some rows => (.ok rows, s)
  | none =>
    match get_sales_data s.db with
    | .ok rows => (.ok rows, ⟨s.db, some rows⟩)
    | .error e => (.error e, s)

/-- Outcome of one click of "Confirm Upload" for `monthly_sales`
(dashboard.py lines 111-139): the new app state, the error message
shown by the `except` branch (if any), and the row count reported by
the success message (if any).  `parsed` is the result of
`pd.read_csv` (error = the parse exception) and `writeOk` tells
whether `to_sql` succeeds against the store.  The `try` block appends
and only then clears the cache; any exception jumps to `st.error`
leaving state untouched. -/
def confirm_upload (s : AppState) (parsed : Except String (List RawRow))
    (writeOk : Bool) : AppState × Option String × Option Nat :=
  match parsed with
  | .error e => (s, some ("Upload Failed: " ++ e), none)
  | .ok rows =>
    if writeOk then
      (⟨s.db ++ rows, none⟩, none, some rows.length)
    else
      (s, some "Upload Failed: to_sql", none)

/-- The header-rename mapping `map_dict` for `amazon_ads` uploads
(dashboard.py lines 118-127), in source order. -/
def map_dict : List (String × String) :=
  [("Products", "products"), ("Status", "status"), ("Ad Type", "ad_type"),
   ("Sponsored", "sponsored"), ("Sales(INR)", "sales_inr"), ("ROAS", "roas"),
   ("Conversion Rate", "conversion_rate"), ("Impressions", "impressions"),
   ("Clicks", "clicks"), ("CTR", "ctr"), ("Spend(INR)", "spend_inr"),
   ("CPC(INR)", "cpc_inr"), ("Orders", "orders"), ("ACOS", "acos"),
   ("NTB Orders", "ntb_orders"), ("% of Orders", "percent_of_orders"),
   ("NTB Sales(INR)", "ntb_sales_inr"), ("% of Sales", "percent_of_sales"),
   ("Viewable Impressions", "viewable_impressions")]

/-- An uploaded table: header names plus rows of string cells aligned
with the header. -/
structure Table where
  cols : List String
  rows : List (List String)
deriving DecidableEq, Repr

/-- `df.rename(columns=map_dict)` on one header name: mapped headers
are replaced, all others kept as-is. -/
def renameCol (c : String) : String :=
  match map_dict.lookup c with
  | some c2 => c2
  | none => c

/-- `df.rename(columns=map_dict)` on a whole table. -/
def Table.renameCols (t : Table) : Table :=
  ⟨t.cols.map renameCol, t.rows⟩

/-- The cell of `row` under header `c` (first matching column, empty
if the header is absent). -/
def colValue (cols row : List String) (c : String) : String :=
  match cols.findIdx? (· = c) with
  | some i => row.getD i ""
  | none => ""

/-- `df[cs]`: column projection, keeping the order of `cs`. -/
def Table.selectCols (t : Table) (cs : List String) : Table :=
  ⟨cs, t.rows.map (fun row => cs.map (colValue t.cols row))⟩

/-- The `amazon_ads` branch of the uploader (dashboard.py lines
117-131): rename headers through `map_dict`, then keep exactly those
canonical columns present after renaming
(`valid = [c for c in map_dict.values() if c in df_new.columns]`). -/
def amazon_ads_normalize (t : Table) : Table :=
  let t2 := t.renameCols
  let valid := (map_dict.map Prod.snd).filter (fun c => decide (c ∈ t2.cols))
  t2.selectCols valid

/-- Helper for `dedupFirst`: drop keys already seen. -/
def dedupSeen (seen : List String) : List String → List String
  | [] => []
  | x :: xs =>
    if x ∈ seen then dedupSeen seen xs else x :: dedupSeen (x :: seen) xs

/-- First-occurrence deduplication of keys, used to enumerate the
groups of a `groupby`. -/
def dedupFirst (l : List String) : List String :=
  dedupSeen [] l

/-- Lexicographic order on character lists, by code point. -/
def charListLe : List Char → List Char → Bool
  | [], _ => true
  | _ :: _, [] => false
  | a :: as, b :: bs =>
    if a.toNat < b.toNat then true
    else if b.toNat < a.toNat then false
    else charListLe as bs

/-- Lexicographic string order, the order in which `groupby` sorts its
string keys. -/
def strLe (a b : String) : Bool :=
  charListLe a.toList b.toList

/-- Insert into an ascending-sorted list of strings. -/
def insAsc (x : String) : List String → List String
  | [] => [x]
  | y :: ys => if strLe x y then x :: y :: ys else y :: insAsc x ys

/-- Ascending insertion sort on strings: `groupby(sort=True)` sorts
the group keys. -/
def sortAsc (l : List String) : List String :=
  l.foldr insAsc []

/-- Stable descending insertion (by the numeric component): a later
element never moves ahead of an equal earlier one. -/
def insDesc (x : String × Int) : List (String × Int) → List (String × Int)
  | [] => [x]
  | y :: ys => if y.2 ≤ x.2 then x :: y :: ys else y :: insDesc x ys

/-- Stable descending sort by value, the order in which
`Series.nlargest` (with its default `keep="first"`) ranks entries. -/
def sortDescByVal (l : List (String × Int)) : List (String × Int) :=
  l.foldr insDesc []

/-- `filtered_df.groupby(key)[val].sum()` as a key-sorted association
list: one entry per distinct key, carrying the sum of `val` over the
rows of that group. -/
def groupSum (key : SalesRow → String) (val : SalesRow → Int)
    (rows : List SalesRow) : List (String × Int) :=
  (sortAsc (dedupFirst (rows.map key))).map
    (fun k => (k, ((rows.filter (fun r => decide (key r = k))).map val).sum))

/-- `Series.nlargest n`: the `n` largest entries, descending, ties
resolved toward the earlier position. -/
def nlargestEntries (n : Nat) (l : List (String × Int)) : List (String × Int) :=
  (sortDescByVal l).take n

/-- `filtered_df.groupby('product_title')['quantity_order'].sum().nlargest(5)`
(dashboard.py line 91). -/
def top_prod (rows : List SalesRow) : List (String × Int) :=
  nlargestEntries 5 (groupSum SalesRow.product_title SalesRow.quantity_order rows)

/-- `filtered_df.groupby('shipping_region')['net_sales'].sum()`
(dashboard.py line 88). -/
def reg_sales (rows : List SalesRow) : List (String × Int) :=
  groupSum SalesRow.shipping_region SalesRow.net_sales rows

/-- One visible output element of a page render. -/
inductive UIElem where
  | pageTitle (txt : String)
  | warning (msg : String)
  | metricRevenue (v : Int)
  | metricOrders (v : Int)
  | barChart (data : List (String × Int))
  | pieChart (data : List (String × Int))
  | write (txt : String)
  | dataframe (rows : List (List String))
  | downloadButton (filename mime content : String)
deriving DecidableEq, Repr

/-- Whether a UI element is a file-download offer. -/
def UIElem.isDownload : UIElem → Bool
  | .downloadButton _ _ _ => true
  | _ => false

/-- The output of `show_dashboard` (dashboard.py lines 51-92) given
the fetched table and the operator's filter selections: title; an
early-returned warning when the whole table is empty; otherwise the
two metrics over the filtered rows followed unconditionally by the two
charts.  The function offers no download and emits nothing else. -/
def show_dashboard (df : List SalesRow) (startD endD : Int)
    (regs prods : List String) : List UIElem :=
  if df.isEmpty then
    [.pageTitle "📊 Monthly Sales Live Dashboard",
     .warning "No data available. Go to the Admin Panel to upload data."]
  else
    let filtered := filterSales df startD endD regs prods
    [.pageTitle "📊 Monthly Sales Live Dashboard",
     .metricRevenue (filtered.map SalesRow.net_sales).sum,
     .metricOrders (filtered.map SalesRow.quantity_order).sum,
     .barChart (reg_sales filtered),
     .pieChart (top_prod filtered)]

/-- CSV serialization of a generic table view (`to_csv(index=False)`):
header line then one comma-joined line per row. -/
def toCsv (cols : List String) (rows : List (List String)) : String :=
  String.intercalate "\n" ((String.intercalate "," cols) :: rows.map (String.intercalate ","))

/-- The inspector tab of the admin panel (dashboard.py lines 142-158)
after a successful load of `tableName`, whose full content in the
store is `cols`/`rows`: the view is `SELECT * ... LIMIT 500` and the
"Download Full Table Dump" button serves exactly that view as
`text/csv`. -/
def show_inspector (tableName : String) (cols : List String)
    (rows : List (List String)) : List UIElem :=
  [.write ("Showing first 500 rows of " ++ tableName),
   .dataframe (rows.take 500),
   .downloadButton (tableName ++ "_dump.csv") "text/csv" (toCsv cols (rows.take 500))]

/-- A sample parsed sales row used to instantiate theorems. -/
def sampleRow : SalesRow :=
  ⟨5, "R1", "A", 100, 2⟩

/-- A sample sales table whose per-product quantity totals are
A:10 (split over two rows), B:10, C:9, D:8, E:7, F:6, with dates 1-7
and regions R1/R2. -/
def exampleDf : List SalesRow :=
  [⟨1, "R1", "A", 100, 6⟩, ⟨2, "R2", "A", 50, 4⟩, ⟨3, "R1", "B", 80, 10⟩,
   ⟨4, "R2", "C", 70, 9⟩, ⟨5, "R1", "D", 60, 8⟩, ⟨6, "R2", "E", 40, 7⟩,
   ⟨7, "R1", "F", 30, 6⟩]

/-- A raw row whose date cell does not parse. -/
def badRawRow : RawRow :=
  ⟨"notadate", "R1", "A", 100, 2⟩

/-- A stored table containing one unparseable date. -/
def badDb : List RawRow :=
  [badRawRow]

/-- C1: a row passes the dashboard filter iff it is a row of the table whose
date lies in `[start, end]` inclusive, whose region is selected and whose
product is selected; a reversed range selects nothing. -/
theorem C1_filter_exact (df : List SalesRow) (startD endD : Int)
    (regs prods : List String) :
    (startD ≤ endD →
      ∀ r, r ∈ filterSales df startD endD regs prods ↔
        (r ∈ df ∧ startD ≤ r.sale_day ∧ r.sale_day ≤ endD ∧
          r.shipping_region ∈ regs ∧ r.product_title ∈ prods)) ∧
    (endD < startD → filterSales df startD endD regs prods = []) := by
  constructor
  · intro _ r
    simp [filterSales, rowMask, List.mem_filter, and_assoc]
  · intro hlt
    apply List.filter_eq_nil_iff.mpr
    intro r _
    simp only [rowMask, Bool.and_eq_true, decide_eq_true_eq, not_and]
    intro h1
    rcases h1 with ⟨⟨hs, he⟩, _⟩
    exact absurd (le_trans hs he) (not_le.mpr hlt)

/-- Witness for C1 at a concrete table and filter selection. -/
theorem C1_filter_exact_witness :
    sampleRow ∈ filterSales [sampleRow] 0 10 ["R1"] ["A"] ∧
    filterSales [sampleRow] 10 0 ["R1"] ["A"] = [] :=
  ⟨((C1_filter_exact [sampleRow] 0 10 ["R1"] ["A"]).1 (by decide) sampleRow).mpr
      (by refine ⟨by decide, by decide, by decide, by decide, by decide⟩),
   (C1_filter_exact [sampleRow] 10 0 ["R1"] ["A"]).2 (by decide)⟩

/-- C2 (counterexample): the claim calls `map_dict` an 18-entry
mapping; the mapping in the source has 19 entries. -/
theorem C2_map_dict_not_18 : ¬ (map_dict.length = 18) := by decide

/-- C2 (amended to a 19-entry mapping): `amazon_ads` ingestion renames
headers through `map_dict` (19 entries) and keeps exactly the canonical
columns present after renaming; the row `{Products, Sales(INR), ROAS}`
is stored as exactly `{products, sales_inr, roas}`. -/
theorem C2_amazon_normalize (t : Table) :
    map_dict.length = 19 ∧
    (∀ c, c ∈ (amazon_ads_normalize t).cols ↔
      (c ∈ map_dict.map Prod.snd ∧ c ∈ t.cols.map renameCol)) ∧
    amazon_ads_normalize ⟨["Products", "Sales(INR)", "ROAS"], [["Widget", "100", "2.5"]]⟩ =
      ⟨["products", "sales_inr", "roas"], [["Widget", "100", "2.5"]]⟩ := by
  refine ⟨by decide, ?_, by decide⟩
  intro c
  simp [amazon_ads_normalize, Table.selectCols, Table.renameCols, List.mem_filter]

/-- C3: the login gate ends with the flag true iff the submitted pair
matches the configured pair or the flag was already true; any mismatch
shows "Access Denied" and leaves the flag untouched, so submitting
("admin", "wrongpass") against a configured password other than
"wrongpass" never sets the flag. -/
theorem C3_login_gate (secUser secPwd : String) (logged : Bool)
    (user pwd : String) :
    ((login secUser secPwd logged user pwd).1 = true ↔
      ((user = secUser ∧ pwd = secPwd) ∨ logged = true)) ∧
    (¬(user = secUser ∧ pwd = secPwd) →
      login secUser secPwd logged user pwd = (logged, true)) ∧
    (secPwd ≠ "wrongpass" →
      login secUser secPwd logged "admin" "wrongpass" = (logged, true)) := by
  refine ⟨?_, ?_, ?_⟩
  · by_cases h : user = secUser ∧ pwd = secPwd <;> simp [login, h]
  · intro h
    simp [login, h]
  · intro h
    have hne : ¬("admin" = secUser ∧ "wrongpass" = secPwd) := fun hc => h hc.2.symm
    simp [login, hne]

/-- Witness for C3: a wrong password is rejected whether or not the
session was already authenticated. -/
theorem C3_login_gate_witness :
    login "admin" "s3cret" false "admin" "wrongpass" = (false, true) ∧
    login "admin" "s3cret" true "admin" "wrongpass" = (true, true) :=
  ⟨(C3_login_gate "admin" "s3cret" false "admin" "wrongpass").2.2 (by decide),
   (C3_login_gate "admin" "s3cret" true "admin" "wrongpass").2.2 (by decide)⟩

/-- C4: a successful upload clears the cache and appends to the store,
so the next fetch re-runs the query over the store and therefore
reflects the newly written rows. -/
theorem C4_cache_invalidated (s : AppState) (rows : List RawRow) :
    (confirm_upload s (.ok rows) true).1.cache = none ∧
    (confirm_upload s (.ok rows) true).1.db = s.db ++ rows ∧
    (cached_get_sales_data (confirm_upload s (.ok rows) true).1).1 =
      get_sales_data (s.db ++ rows) := by
  refine ⟨rfl, rfl, ?_⟩
  simp only [confirm_upload, cached_get_sales_data]
  cases h : get_sales_data (s.db ++ rows) <;> simp [h]

/-- C5 (counterexample): with a non-empty table whose filtered subset
is empty, the dashboard still emits both charts (over empty grouped
data) — they are not skipped. -/
theorem C5_charts_not_skipped :
    exampleDf ≠ [] ∧
    filterSales exampleDf 0 10 [] [] = [] ∧
    UIElem.barChart [] ∈ show_dashboard exampleDf 0 10 [] [] ∧
    UIElem.pieChart [] ∈ show_dashboard exampleDf 0 10 [] [] := by decide

/-- C5 (amended): when the filtered table is empty but the underlying
table is not, both metrics render as zero and the two charts are
rendered over the empty grouped data (rather than skipped). -/
theorem C5_empty_filter_render (df : List SalesRow) (startD endD : Int)
    (regs prods : List String) (hdf : df ≠ [])
    (hfil : filterSales df startD endD regs prods = []) :
    show_dashboard df startD endD regs prods =
      [.pageTitle "📊 Monthly Sales Live Dashboard", .metricRevenue 0,
       .metricOrders 0, .barChart [], .pieChart []] := by
  have hne : df.isEmpty = false := by
    cases df with
    | nil => exact absurd rfl hdf
    | cons a l => rfl
  simp [show_dashboard, hne, hfil, reg_sales, top_prod, groupSum,
    dedupFirst, dedupSeen, sortAsc, nlargestEntries, sortDescByVal]

/-- Witness for C5 (amended) at a concrete table and a date range past
every row. -/
theorem C5_empty_filter_render_witness :
    show_dashboard exampleDf 20 30 ["R1", "R2"] ["A", "B", "C", "D", "E", "F"] =
      [.pageTitle "📊 Monthly Sales Live Dashboard", .metricRevenue 0,
       .metricOrders 0, .barChart [], .pieChart []] :=
  C5_empty_filter_render exampleDf 20 30 ["R1", "R2"] ["A", "B", "C", "D", "E", "F"]
    (by decide) (by decide)

/-- One row parses iff its date cell parses. -/
theorem parseRow_eq_none_iff (r : RawRow) :
    parseRow r = none ↔ parseDate r.sale_day = none := by
  simp [parseRow]

/-- `parseAll` fails exactly when some row's date cell fails to parse. -/
theorem parseAll_eq_none_iff (db : List RawRow) :
    parseAll db = none ↔ ∃ r ∈ db, parseDate r.sale_day = none := by
  induction db with
  | nil => simp [parseAll]
  | cons r rs ih =>
    constructor
    · intro h
      by_cases hd : parseDate r.sale_day = none
      · exact ⟨r, List.mem_cons_self r rs, hd⟩
      · cases hx : parseRow r with
        | none => exact absurd ((parseRow_eq_none_iff r).mp hx) hd
        | some x =>
          have hq : parseAll rs = none := by
            cases hq2 : parseAll rs with
            | none => rfl
            | some xs => simp [parseAll, hx, hq2] at h
          rcases ih.mp hq with ⟨r2, hr2, hd2⟩
          exact ⟨r2, List.mem_cons_of_mem _ hr2, hd2⟩
    · rintro ⟨r2, hr2, hd2⟩
      rcases List.mem_cons.mp hr2 with heq | hmem
      · have hx : parseRow r = none := by
          rw [heq] at hd2
          exact (parseRow_eq_none_iff r).mpr hd2
        simp [parseAll, hx]
      · have hq : parseAll rs = none := ih.mpr ⟨r2, hmem, hd2⟩
        cases hx : parseRow r <;> simp [parseAll, hx, hq]

/-- C6 (counterexample): with an unparseable date in the column, the
fetch raises (the error escapes `get_sales_data`, which has no handler)
instead of returning an empty table with a handled error message. -/
theorem C6_fetch_raises_instead :
    get_sales_data badDb =
      Except.error "pd.to_datetime: Unknown datetime string format" ∧
    get_sales_data badDb ≠ Except.ok [] :=
  ⟨rfl, fun h => Except.noConfusion h⟩

/-- C6 (amended): `get_sales_data` contains no error handling: if any
date cell is unparseable the parse exception propagates out of the
fetch (no table, empty or otherwise, is returned), and only when every
date parses does it return the parsed table. -/
theorem C6_fetch_error_propagates (db : List RawRow) :
    ((∃ r ∈ db, parseDate r.sale_day = none) →
      get_sales_data db =
        Except.error "pd.to_datetime: Unknown datetime string format") ∧
    ((∀ r ∈ db, parseDate r.sale_day ≠ none) →
      ∃ rows, get_sales_data db = Except.ok rows) := by
  constructor
  · intro h
    have hq : parseAll db = none := (parseAll_eq_none_iff db).mpr h
    simp [get_sales_data, hq]
  · intro h
    cases hq : parseAll db with
    | none =>
      rcases (parseAll_eq_none_iff db).mp hq with ⟨r, hr, hd⟩
      exact absurd hd (h r hr)
    | some rows =>
      exact ⟨rows, by simp [get_sales_data, hq]⟩

/-- Witness for C6 (amended) at a one-row store whose date cell is not
a date. -/
theorem C6_fetch_error_propagates_witness :
    get_sales_data badDb =
      Except.error "pd.to_datetime: Unknown datetime string format" :=
  (C6_fetch_error_propagates badDb).1 ⟨badRawRow, by decide, by decide⟩

/-- Membership in an `insDesc` insertion. -/
theorem mem_insDesc {z x : String × Int} {l : List (String × Int)} :
    z ∈ insDesc x l ↔ z = x ∨ z ∈ l := by
  induction l with
  | nil => simp [insDesc]
  | cons y ys ih =>
    by_cases hc : y.2 ≤ x.2
    · simp [insDesc, hc]
    · simp [insDesc, hc, ih]
      tauto

/-- `insDesc` preserves descending-by-value sortedness. -/
theorem pairwise_insDesc (x : String × Int) (l : List (String × Int))
    (h : l.Pairwise (fun a b => b.2 ≤ a.2)) :
    (insDesc x l).Pairwise (fun a b => b.2 ≤ a.2) := by
  induction l with
  | nil => simp [insDesc]
  | cons y ys ih =>
    rcases List.pairwise_cons.mp h with ⟨hy, hys⟩
    by_cases hc : y.2 ≤ x.2
    · rw [insDesc, if_pos hc]
      refine List.pairwise_cons.mpr ⟨?_, h⟩
      intro z hz
      rcases List.mem_cons.mp hz with heq | hmem
      · rw [heq]; exact hc
      · exact le_trans (hy z hmem) hc
    · rw [insDesc, if_neg hc]
      refine List.pairwise_cons.mpr ⟨?_, ih hys⟩
      intro z hz
      rcases mem_insDesc.mp hz with heq | hmem
      · rw [heq]; exact le_of_not_le hc
      · exact hy z hmem

/-- `sortDescByVal` always yields a descending-by-value list. -/
theorem pairwise_sortDescByVal (l : List (String × Int)) :
    (sortDescByVal l).Pairwise (fun a b => b.2 ≤ a.2) := by
  induction l with
  | nil => simp [sortDescByVal]
  | cons x xs ih => exact pairwise_insDesc x _ ih

/-- C7: the top-products aggregation returns at most 5 entries, in
descending quantity order; on per-product quantities
A:10, B:10, C:9, D:8, E:7, F:6 it returns exactly the 5 entries
A, B, C, D, E (the A/B tie kept in the grouping's sorted key order)
totaling 44. -/
theorem C7_top_products (rows : List SalesRow) :
    (top_prod rows).length ≤ 5 ∧
    (top_prod rows).Pairwise (fun a b => b.2 ≤ a.2) ∧
    top_prod exampleDf = [("A", 10), ("B", 10), ("C", 9), ("D", 8), ("E", 7)] ∧
    ((top_prod exampleDf).map Prod.snd).sum = 44 := by
  refine ⟨?_, ?_, by decide, by decide⟩
  · simp only [top_prod, nlargestEntries]
    exact List.length_take_le 5 _
  · exact (pairwise_sortDescByVal _).sublist (List.take_sublist _ _)

/-- C8 (counterexample): a fully rendered dashboard over a non-empty
filtered table contains no file-download element at all. -/
theorem C8_dashboard_has_no_download :
    exampleDf ≠ [] ∧
    filterSales exampleDf 0 10 ["R1", "R2"] ["A", "B", "C", "D", "E", "F"] ≠ [] ∧
    (show_dashboard exampleDf 0 10 ["R1", "R2"]
        ["A", "B", "C", "D", "E", "F"]).filter UIElem.isDownload = [] := by decide

/-- C8 (amended): the dashboard view offers no download in any state;
the only CSV download in the application is the admin inspector's
"Download Full Table Dump" button, which serves the at-most-500-row
inspected view as `text/csv`, not the filtered sales table. -/
theorem C8_download_only_in_inspector (df : List SalesRow) (startD endD : Int)
    (regs prods : List String) (tableName : String) (cols : List String)
    (rows : List (List String)) :
    (show_dashboard df startD endD regs prods).filter UIElem.isDownload = [] ∧
    (show_inspector tableName cols rows).filter UIElem.isDownload =
      [.downloadButton (tableName ++ "_dump.csv") "text/csv"
        (toCsv cols (rows.take 500))] := by
  constructor
  · cases hne : df.isEmpty <;> simp [show_dashboard, hne, UIElem.isDownload]
  · rfl

/-- C9: any failing step in the uploader leaves the state — store and
cache alike — unchanged and reports an error with no success message,
while a successful append reports the row count and clears the cache. -/
theorem C9_upload_failure_handling (s : AppState) (msg : String) (w : Bool)
    (rows : List RawRow) :
    confirm_upload s (.error msg) w =
      (s, some ("Upload Failed: " ++ msg), none) ∧
    confirm_upload s (.ok rows) false =
      (s, some "Upload Failed: to_sql", none) ∧
    (confirm_upload s (.ok rows) true).2.2 = some rows.length ∧
    (confirm_upload s (.ok rows) true).1.cache = none := by
  exact ⟨rfl, rfl, rfl, rfl⟩

/-- C10: the inspector's "Download Full Table Dump" serves exactly the
displayed `LIMIT 500` view, so on a table with more than 500 rows the
dump holds exactly the first 500 rows and is never the whole table. -/
theorem C10_dump_truncated_at_500 (tableName : String) (cols : List String)
    (rows : List (List String)) (h : 500 < rows.length) :
    UIElem.dataframe (rows.take 500) ∈ show_inspector tableName cols rows ∧
    UIElem.downloadButton (tableName ++ "_dump.csv") "text/csv"
        (toCsv cols (rows.take 500)) ∈ show_inspector tableName cols rows ∧
    (rows.take 500).length = 500 ∧
    rows.take 500 ≠ rows := by
  refine ⟨by simp [show_inspector], by simp [show_inspector], ?_, ?_⟩
  · simp only [List.length_take]
    omega
  · intro hEq
    have hlen := congrArg List.length hEq
    simp only [List.length_take] at hlen
    omega

/-- Witness for C10 at a concrete 501-row table. -/
theorem C10_dump_truncated_at_500_witness :
    (List.replicate 501 (["x"] : List String)).take 500 ≠
      List.replicate 501 ["x"] :=
  (C10_dump_truncated_at_500 "monthly_sales" ["c"]
    (List.replicate 501 ["x"]) (by rw [List.length_replicate]; omega)).2.2.2
